import Mathlib

/-!
Verification development for the Certichain backend core:
credential issuance, anchoring, verification and revocation.

The JavaScript source is embedded shallowly:
pure computations become Lean functions; database and ledger effects
(`save`, `findById`, contract calls, `Math.random`, clocks) become explicit
`Except`/`Option`/value parameters recording the outcome of the effect, so
every control path of the original controllers is a branch of a total
executable Lean function.
-/

namespace Certichain

/- ### SHA-256 (crypto.createHash of sha256 ... digest of hex)

`certificateSchema.methods.generateHash` feeds a template string into Node's
SHA-256 and reads the hex digest.  The full FIPS 180-4 compression function is
embedded here over `Nat` with explicit reduction mod 2^32. -/

/-- Reduce to a 32-bit word. -/
def w32 (n : Nat) : Nat := n % 4294967296

/-- Right rotation of a 32-bit word by `b` bits. -/
def rotr (b n : Nat) : Nat := w32 ((n >>> b) ||| (n <<< (32 - b)))

/-- Bitwise complement within 32 bits. -/
def compl32 (n : Nat) : Nat := 4294967295 ^^^ n

def smallSigma0 (x : Nat) : Nat := (rotr 7 x) ^^^ (rotr 18 x) ^^^ (x >>> 3)

def smallSigma1 (x : Nat) : Nat := (rotr 17 x) ^^^ (rotr 19 x) ^^^ (x >>> 10)

def bigSigma0 (x : Nat) : Nat := (rotr 2 x) ^^^ (rotr 13 x) ^^^ (rotr 22 x)

def bigSigma1 (x : Nat) : Nat := (rotr 6 x) ^^^ (rotr 11 x) ^^^ (rotr 25 x)

def chFn (x y z : Nat) : Nat := (x &&& y) ^^^ (compl32 x &&& z)

def majFn (x y z : Nat) : Nat := (x &&& y) ^^^ (x &&& z) ^^^ (y &&& z)

/-- The 64 SHA-256 round constants (FIPS 180-4, in decimal). -/
def roundK : List Nat :=
  [1116352408, 1899447441, 3049323471, 3921009573,
   961987163, 1508970993, 2453635748, 2870763221,
   3624381080, 310598401, 607225278, 1426881987,
   1925078388, 2162078206, 2614888103, 3248222580,
   3835390401, 4022224774, 264347078, 604807628,
   770255983, 1249150122, 1555081692, 1996064986,
   2554220882, 2821834349, 2952996808, 3210313671,
   3336571891, 3584528711, 113926993, 338241895,
   666307205, 773529912, 1294757372, 1396182291,
   1695183700, 1986661051, 2177026350, 2456956037,
   2730485921, 2820302411, 3259730800, 3345764771,
   3516065817, 3600352804, 4094571909, 275423344,
   430227734, 506948616, 659060556, 883997877,
   958139571, 1322822218, 1537002063, 1747873779,
   1955562222, 2024104815, 2227730452, 2361852424,
   2428436474, 2756734187, 3204031479, 3329325298]

/-- State of the eight SHA-256 working registers. -/
structure Hash8 where
  a : Nat
  b : Nat
  c : Nat
  d : Nat
  e : Nat
  f : Nat
  g : Nat
  h : Nat
deriving Repr, DecidableEq

/-- The SHA-256 initial hash value (FIPS 180-4, in decimal). -/
def initH : Hash8 :=
  ⟨1779033703, 3144134277, 1013904242, 2773480762,
   1359893119, 2600822924, 528734635, 1541459225⟩

/-- The eight bytes of a 64-bit big-endian length field. -/
def lenBytes64 (n : Nat) : List Nat :=
  [n >>> 56 % 256, n >>> 48 % 256, n >>> 40 % 256, n >>> 32 % 256,
   n >>> 24 % 256, n >>> 16 % 256, n >>> 8 % 256, n % 256]

/-- FIPS 180-4 padding: append 0x80, zero bytes to 56 mod 64, then the
original bit length as 8 big-endian bytes. -/
def padMessage (msg : List Nat) : List Nat :=
  let zeros := (119 - msg.length % 64) % 64
  msg ++ [0x80] ++ List.replicate zeros 0 ++ lenBytes64 (8 * msg.length)

/-- Group bytes into big-endian 32-bit words. -/
def bytesToWords : List Nat → List Nat
  | b0 :: b1 :: b2 :: b3 :: rest =>
      (((b0 * 256 + b1) * 256 + b2) * 256 + b3) :: bytesToWords rest
  | _ => []

/-- Split a padded message into 64-byte blocks. -/
def toBlocks (l : List Nat) : List (List Nat) :=
  if h : l = [] then []
  else l.take 64 :: toBlocks (l.drop 64)
termination_by l.length
decreasing_by
  simp only [List.length_drop]
  have : 0 < l.length := List.length_pos.mpr h
  omega

/-- Extend the 16 message-schedule words by `fuel` further words. -/
def extendSchedule (ws : List Nat) : Nat → List Nat
  | 0 => ws
  | n + 1 =>
      let k := ws.length
      let newWord := w32 (smallSigma1 (ws.getD (k - 2) 0) + ws.getD (k - 7) 0 +
        smallSigma0 (ws.getD (k - 15) 0) + ws.getD (k - 16) 0)
      extendSchedule (ws ++ [newWord]) n

/-- One SHA-256 compression round, consuming a (schedule word, constant) pair. -/
def shaRound (st : Hash8) (wk : Nat × Nat) : Hash8 :=
  let t1 := w32 (st.h + bigSigma1 st.e + chFn st.e st.f st.g + wk.2 + wk.1)
  let t2 := w32 (bigSigma0 st.a + majFn st.a st.b st.c)
  ⟨w32 (t1 + t2), st.a, st.b, st.c, w32 (st.d + t1), st.e, st.f, st.g⟩

/-- Process one 64-byte block. -/
def compressBlock (st : Hash8) (block : List Nat) : Hash8 :=
  let ws := extendSchedule (bytesToWords block) 48
  let fin := (ws.zip roundK).foldl shaRound st
  ⟨w32 (st.a + fin.a), w32 (st.b + fin.b), w32 (st.c + fin.c), w32 (st.d + fin.d),
   w32 (st.e + fin.e), w32 (st.f + fin.f), w32 (st.g + fin.g), w32 (st.h + fin.h)⟩

/-- Big-endian bytes of a 32-bit word. -/
def wordBytes (n : Nat) : List Nat :=
  [n >>> 24 % 256, n >>> 16 % 256, n >>> 8 % 256, n % 256]

/-- The 32 digest bytes of a final state. -/
def stateBytes (st : Hash8) : List Nat :=
  wordBytes st.a ++ wordBytes st.b ++ wordBytes st.c ++ wordBytes st.d ++
  wordBytes st.e ++ wordBytes st.f ++ wordBytes st.g ++ wordBytes st.h

/-- SHA-256 digest of a byte sequence. -/
def sha256Bytes (msg : List Nat) : List Nat :=
  stateBytes ((toBlocks (padMessage msg)).foldl compressBlock initH)

/-- The sixteen lowercase hex digits. -/
def hexAlphabet : List Char := "0123456789abcdef".data

/-- Hex digit for a value (reduced mod 16). -/
def hexChar (n : Nat) : Char := hexAlphabet.getD (n % 16) '0'

/-- Lowercase hex rendering of a byte list, two digits per byte. -/
def bytesToHexChars : List Nat → List Char
  | [] => []
  | b :: bs => hexChar (b / 16) :: hexChar b :: bytesToHexChars bs

/-- Node's `digest('hex')` on the SHA-256 of the UTF-8 bytes of a string. -/
def sha256Hex (s : String) : String :=
  ⟨bytesToHexChars (sha256Bytes (s.toUTF8.toList.map UInt8.toNat))⟩

/- ### Data model (Certificate.model.js)

Fields are restricted to the ones the lifecycle, verification and revocation
paths read or write.  JavaScript `Number` fields that are only ever
interpolated into template strings (`overallCGPA`, and the `Date` valued
`issuedAt`) are carried as their rendered string form, which is exactly how
`generateHash` consumes them; `graduationYear` is an integer and is kept as
`Nat`. -/

/-- The `status` enum of the certificate schema. -/
inductive CertStatus
  | PENDING
  | MINTED
  | VERIFIED
  | REVOKED
deriving Repr, DecidableEq, BEq

/-- A credential record as persisted by the store. -/
structure Certificate where
  /-- Store-assigned identifier (Mongo ObjectId, 24 hex chars). -/
  id : String
  studentName : String
  degree : String
  /-- Rendered form of the numeric `overallCGPA`, as interpolated. -/
  overallCGPA : String
  graduationYear : Nat
  /-- Rendered form of the `issuedAt` Date, as interpolated. -/
  issuedAt : String
  apiCode : String
  certificateHash : String
  tokenId : Option Nat
  transactionHash : Option String
  blockNumber : Option Nat
  status : CertStatus
  revocationReason : Option String
  qrCode : Option String
  verificationLink : Option String
  verificationCount : Nat
  lastVerified : Option Nat
deriving Repr, DecidableEq

/-- The template string hashed by `generateHash`:
name-degree-overallCGPA-graduationYear-issuedAt. -/
def hashInput (c : Certificate) : String :=
  c.studentName ++ "-" ++ c.degree ++ "-" ++ c.overallCGPA ++ "-" ++
    toString c.graduationYear ++ "-" ++ c.issuedAt

/-- `certificateSchema.methods.generateHash`: SHA-256 hex digest of the
canonical concatenation of name, degree, CGPA, graduation year and the
issuance timestamp. -/
def generateHash (c : Certificate) : String :=
  sha256Hex (hashInput c)

/-- `certificateSchema.methods.generateApiCode`.  The base-36 timestamp
component and the random component are inputs (`Date.now()` and
`Math.random()` renderings); `collegeCode` is `this.college?.code`, which is
absent when the `college` field holds an unpopulated ObjectId. -/
def generateApiCode (collegeCode : Option String) (year : Nat)
    (timestampB36 : String) (random : String) : String :=
  (collegeCode.getD "CERT") ++ "-" ++ toString year ++ "-" ++
    timestampB36 ++ "-" ++ random

/-- `certificateSchema.methods.recordVerification`: a read-modify-write — the
in-memory counter is incremented, the last-verified timestamp set, and the
whole document saved. -/
def recordVerification (c : Certificate) (now : Nat) : Certificate :=
  { c with verificationCount := c.verificationCount + 1, lastVerified := some now }

/-- The schema virtual `isValid`: status is MINTED or VERIFIED. -/
def virtualIsValid (c : Certificate) : Bool :=
  c.status == CertStatus.MINTED || c.status == CertStatus.VERIFIED

/- ### Store lookups and the save write

`Certificate.findById` / `findOne` become searches of a store snapshot, and a
mongoose `save()` of an existing document overwrites the stored document with
the in-memory one. -/

def findById (store : List Certificate) (id : String) : Option Certificate :=
  store.find? (fun c => c.id == id)

def findByHash (store : List Certificate) (h : String) : Option Certificate :=
  store.find? (fun c => c.certificateHash == h)

def findByApiCode (store : List Certificate) (code : String) : Option Certificate :=
  store.find? (fun c => c.apiCode == code)

/-- `save()` on an existing document: replace the stored document that has the
same identifier with the in-memory one. -/
def saveCert (store : List Certificate) (c : Certificate) : List Certificate :=
  store.map (fun d => if d.id == c.id then c else d)

/- ### Ledger Anchor Client (blockchain.service.js)

Each method branches on whether a contract is configured; the live branch's
chain interaction is an `Except` input recording the outcome of the external
call, and the `Math.random()` draws of the mock mint are inputs. -/

/-- Result shape of `mintCertificate`. -/
structure MintResult where
  tokenId : Nat
  transactionHash : String
  blockNumber : Nat
  gasUsed : String
deriving Repr, DecidableEq

/-- Result shape of `verifyCertificate(tokenId)`. -/
structure ChainVerification where
  studentName : String
  degree : String
  institution : String
  year : Nat
  certificateHash : String
  timestampMs : Nat
  isValid : Bool
  owner : String
deriving Repr, DecidableEq

/-- Result shape of `verifyCertificateByHash`. -/
structure HashVerification where
  tokenId : Nat
  studentName : String
  degree : String
  institution : String
  year : Nat
  isValid : Bool
deriving Repr, DecidableEq

/-- Result shape of the service `revokeCertificate`. -/
structure RevokeResult where
  transactionHash : String
  blockNumber : Nat
deriving Repr, DecidableEq

/-- `BlockchainService.mintCertificate`.  Without a contract it fabricates a
mock result from two random draws (`Math.floor(Math.random()*10000)`,
`Math.floor(Math.random()*1000000)`) and a random hex fraction
(`Math.random().toString(16).substring(2, 66)`); with a contract it forwards
the chain outcome, wrapping failures. -/
def serviceMintCertificate (contractConfigured : Bool)
    (randToken randBlock : Nat) (randHexFrac : String)
    (chain : Except String MintResult) : Except String MintResult :=
  if !contractConfigured then
    .ok { tokenId := randToken % 10000,
          transactionHash := "0x" ++ randHexFrac,
          blockNumber := randBlock % 1000000,
          gasUsed := "21000" }
  else
    match chain with
    | .ok r => .ok r
    | .error e => .error ("Minting failed: " ++ e)

/-- `BlockchainService.verifyCertificate`.  Without a contract it returns the
fixed mock verification (valid); with a contract it forwards the chain
outcome, wrapping failures. -/
def serviceVerifyCertificate (contractConfigured : Bool) (now : Nat)
    (chain : Except String ChainVerification) : Except String ChainVerification :=
  if !contractConfigured then
    .ok { studentName := "Mock Student", degree := "Mock Degree",
          institution := "Mock Institution", year := 2024,
          certificateHash := "mock_hash", timestampMs := now,
          isValid := true, owner := "0x0000000000000000000000000000000000000000" }
  else
    match chain with
    | .ok r => .ok r
    | .error e => .error ("Verification failed: " ++ e)

/-- `BlockchainService.verifyCertificateByHash`.  Without a contract it throws
(the internal catch re-wraps the message); with a contract it forwards the
chain outcome. -/
def serviceVerifyCertificateByHash (contractConfigured : Bool)
    (chain : Except String HashVerification) : Except String HashVerification :=
  if !contractConfigured then
    .error "Hash verification failed: Contract not initialized"
  else
    match chain with
    | .ok r => .ok r
    | .error e => .error ("Hash verification failed: " ++ e)

/-- `BlockchainService.revokeCertificate`.  Without a contract it throws; with
a contract it forwards the chain outcome. -/
def serviceRevokeCertificate (contractConfigured : Bool)
    (chain : Except String RevokeResult) : Except String RevokeResult :=
  if !contractConfigured then
    .error "Revocation failed: Contract not initialized"
  else
    match chain with
    | .ok r => .ok r
    | .error e => .error ("Revocation failed: " ++ e)

/- ### QR Payload Codec (qr.service.js) -/

/-- A character of the class used by the three source patterns,
0-9, a-f or A-F. -/
def isHexChar (c : Char) : Bool :=
  ('0' ≤ c && c ≤ '9') || ('a' ≤ c && c ≤ 'f') || ('A' ≤ c && c ≤ 'F')

/-- The anchored 24-hex ObjectId pattern used in `verifyByQRCode` and
`validateQRData`. -/
def isObjectIdHex (s : String) : Bool :=
  s.data.length == 24 && s.data.all isHexChar

/-- The last `n` characters. -/
def lastN (l : List Char) (n : Nat) : List Char := l.drop (l.length - n)

/-- Everything but the last `n` characters. -/
def dropLastN (l : List Char) (n : Nat) : List Char := l.take (l.length - n)

/-- Classifier tags of `validateQRData` (its `type` field). -/
inductive QRType
  | certificateId
  | certificateHash
  | unknown
deriving Repr, DecidableEq

/-- Result shape of `validateQRData` (`qtype` embeds its `type` field). -/
structure QRClassification where
  qtype : QRType
  value : String
  isValid : Bool
deriving Repr, DecidableEq

/-- `qrService.validateQRData`: a bare 24-hex identifier, else a bare 64-hex
fingerprint, else a string ending in a verification URL tail
(slash-verify-slash then a 24-hex id, or then hash-slash and a 64-hex
fingerprint), else unknown. -/
def validateQRData (qrData : String) : QRClassification :=
  let cs := qrData.data
  if cs.length == 24 && cs.all isHexChar then
    ⟨.certificateId, qrData, true⟩
  else if cs.length == 64 && cs.all isHexChar then
    ⟨.certificateHash, qrData, true⟩
  else
    let id24 := lastN cs 24
    let hash64 := lastN cs 64
    if id24.length == 24 && id24.all isHexChar &&
        lastN (dropLastN cs 24) 8 == "/verify/".data then
      ⟨.certificateId, ⟨id24⟩, true⟩
    else if hash64.length == 64 && hash64.all isHexChar &&
        lastN (dropLastN cs 64) 5 == "hash/".data &&
        lastN (dropLastN cs 69) 8 == "/verify/".data then
      ⟨.certificateHash, ⟨hash64⟩, true⟩
    else
      ⟨.unknown, qrData, false⟩

/-- The canonical verification URL produced at issuance
(certificate.controller and `qrService.generateQRCode`). -/
def verificationLinkFor (clientUrl : String) (certId : String) : String :=
  clientUrl ++ "/verify/" ++ certId

/- ### Verification Engine (verify.controller.js) -/

/-- The ledger signal consulted by the by-identifier and by-QR paths: absent
when the record has no token, or when the service call threw (the controller
catches and proceeds with `null`). -/
def chainSignal (tokenId : Option Nat)
    (ledger : Except String ChainVerification) : Option ChainVerification :=
  match tokenId with
  | none => none
  | some _ =>
      match ledger with
      | .ok v => some v
      | .error _ => none

/-- The controllers' validity formula:
status is MINTED, and no ledger signal was obtained or it reports valid. -/
def overallValid (status : CertStatus) (signalIsValid : Option Bool) : Bool :=
  (status == CertStatus.MINTED) &&
    (match signalIsValid with
     | none => true
     | some v => v)

/-- Response shape shared by the three verification endpoints. -/
structure VerifyResponse where
  httpStatus : Nat
  success : Bool
  isValid : Bool
  certificate : Option Certificate
deriving Repr, DecidableEq

/-- `verifyCertificateById`: 404 on a lookup miss; otherwise consult the
ledger when a token exists (a thrown service error is caught and ignored),
record the verification, and report the validity formula. -/
def verifyCertificateById (found : Option Certificate)
    (ledger : Except String ChainVerification) (now : Nat) : VerifyResponse :=
  match found with
  | none => ⟨404, false, false, none⟩
  | some cert =>
      let bv := chainSignal cert.tokenId ledger
      let cert2 := recordVerification cert now
      ⟨200, true, overallValid cert2.status (bv.map (fun v => v.isValid)), some cert2⟩

/-- `verifyCertificateByHash`: like the by-identifier path, but the ledger
cross-check is attempted unconditionally (not gated on a token). -/
def verifyCertificateByHash (found : Option Certificate)
    (ledger : Except String HashVerification) (now : Nat) : VerifyResponse :=
  match found with
  | none => ⟨404, false, false, none⟩
  | some cert =>
      let bv : Option HashVerification :=
        match ledger with
        | .ok v => some v
        | .error _ => none
      let cert2 := recordVerification cert now
      ⟨200, true, overallValid cert2.status (bv.map (fun v => v.isValid)), some cert2⟩

/-- The lookup actually performed by `verifyByQRCode`: a 24-hex payload is
tried as an identifier, and any payload that did not resolve that way is
matched literally against stored fingerprints. -/
def qrLookup (store : List Certificate) (qrData : String) : Option Certificate :=
  let byId := if isObjectIdHex qrData then findById store qrData else none
  match byId with
  | some c => some c
  | none => findByHash store qrData

/-- `verifyByQRCode`: dispatch via `qrLookup`, then the same ledger
cross-check and validity formula as the by-identifier path. -/
def verifyByQRCode (store : List Certificate) (qrData : String)
    (ledger : Except String ChainVerification) (now : Nat) : VerifyResponse :=
  match qrLookup store qrData with
  | none => ⟨404, false, false, none⟩
  | some cert =>
      let bv := chainSignal cert.tokenId ledger
      let cert2 := recordVerification cert now
      ⟨200, true, overallValid cert2.status (bv.map (fun v => v.isValid)), some cert2⟩

/- ### Credential Lifecycle Manager (certificate.controller.js) -/

/-- The populated issuer college consulted during issuance. -/
structure College where
  id : String
  code : String
  walletAddress : String
deriving Repr, DecidableEq

/-- Request payload fields that reach the new record (with numeric and Date
renderings as in `Certificate`). -/
structure IssuanceInput where
  certId : String
  studentName : String
  degree : String
  overallCGPA : String
  graduationYear : Nat
  issuedAt : String
deriving Repr, DecidableEq

/-- The freshly constructed record before hash and access code assignment:
schema defaults give status PENDING, counter 0 and unset anchoring fields. -/
def newCertificate (inp : IssuanceInput) : Certificate :=
  { id := inp.certId, studentName := inp.studentName, degree := inp.degree,
    overallCGPA := inp.overallCGPA, graduationYear := inp.graduationYear,
    issuedAt := inp.issuedAt, apiCode := "", certificateHash := "",
    tokenId := none, transactionHash := none, blockNumber := none,
    status := CertStatus.PENDING, revocationReason := none, qrCode := none,
    verificationLink := none, verificationCount := 0, lastVerified := none }

/-- Response shape of the issuance endpoint. -/
structure IssueResponse where
  httpStatus : Nat
  success : Bool
  message : String
  errorMsg : Option String
  warning : Option String
  apiCode : Option String
  verificationLink : Option String
  qrCode : Option String
deriving Repr, DecidableEq

/-- The outer-catch failure response of the issuance endpoint. -/
def issuanceFailure (e : String) : IssueResponse :=
  ⟨500, false, "Certificate issuance failed", some e, none, none, none, none⟩

/-- `certificateController.issueCertificate`.  Effect outcomes are explicit:
`save1` persists the new record (a store uniqueness violation on the
fingerprint or access code index surfaces here as an error), `qrResult` is the
QR renderer outcome, `save2` persists the QR metadata, `mint` is the Ledger
Anchor Client outcome, and `save3` the final persistence of either branch.
Any error other than the mint's reaches the outer catch and fails the
issuance; a mint error is caught locally and the issuance still succeeds.
The second component is the record as persisted when the handler finishes.
`generateApiCode` receives no college code because the record's college field
holds an unpopulated identifier. -/
def issueCertificate (issuerCollege : Option College) (inp : IssuanceInput)
    (year : Nat) (timestampB36 random : String) (clientUrl : String)
    (save1 : Except String Unit) (qrResult : Except String String)
    (save2 : Except String Unit) (mint : Except String MintResult)
    (save3 : Except String Unit) : IssueResponse × Option Certificate :=
  match issuerCollege with
  | none =>
      (⟨400, false, "Issuer must be associated with a college",
        none, none, none, none, none⟩, none)
  | some _ =>
      let cert0 := newCertificate inp
      let cert1 := { cert0 with
        certificateHash := generateHash cert0,
        apiCode := generateApiCode none year timestampB36 random }
      match save1 with
      | .error e => (issuanceFailure e, none)
      | .ok _ =>
      match qrResult with
      | .error e => (issuanceFailure e, some cert1)
      | .ok qr =>
      let link := verificationLinkFor clientUrl inp.certId
      let cert2 := { cert1 with qrCode := some qr, verificationLink := some link }
      match save2 with
      | .error e => (issuanceFailure e, some cert1)
      | .ok _ =>
      match mint with
      | .ok r =>
          let cert3 := { cert2 with
            tokenId := some r.tokenId,
            transactionHash := some r.transactionHash,
            blockNumber := some r.blockNumber,
            status := CertStatus.MINTED }
          match save3 with
          | .error e => (issuanceFailure e, some cert2)
          | .ok _ =>
              (⟨201, true, "Certificate issued successfully with complete academic record",
                none, none, some cert1.apiCode, some link, some qr⟩, some cert3)
      | .error _ =>
          let cert3 := { cert2 with status := CertStatus.PENDING }
          match save3 with
          | .error e => (issuanceFailure e, some cert2)
          | .ok _ =>
              (⟨201, true, "Certificate created with complete academic record, blockchain minting pending",
                none, some "Blockchain minting failed, will retry automatically",
                some cert1.apiCode, some link, some qr⟩, some cert3)

/-- Response shape of the revocation endpoint. -/
structure RevokeResponse where
  httpStatus : Nat
  success : Bool
  message : String
deriving Repr, DecidableEq

/-- `certificateController.revokeCertificate`.  When the record has a token
the service revoke is awaited with no local catch, so its failure reaches the
outer catch with the record untouched; otherwise (and on service success) the
status is set to REVOKED, the reason stored and the document saved.  The
second component is the record as persisted when the handler finishes. -/
def revokeCertificate (found : Option Certificate) (reason : String)
    (chainRevoke : Except String RevokeResult) (save : Except String Unit) :
    RevokeResponse × Option Certificate :=
  match found with
  | none => (⟨404, false, "Certificate not found"⟩, none)
  | some cert =>
      let step : Except String Unit :=
        match cert.tokenId with
        | none => .ok ()
        | some _ => chainRevoke.map (fun _ => ())
      match step with
      | .error _ => (⟨500, false, "Certificate revocation failed"⟩, some cert)
      | .ok _ =>
          let cert2 := { cert with
            status := CertStatus.REVOKED, revocationReason := some reason }
          match save with
          | .error _ => (⟨500, false, "Certificate revocation failed"⟩, some cert)
          | .ok _ => (⟨200, true, "Certificate revoked successfully"⟩, some cert2)

/-- Response shape of the access-code lookup endpoint; it carries the record
but no validity verdict. -/
structure ApiCodeResponse where
  httpStatus : Nat
  success : Bool
  certificate : Option Certificate
deriving Repr, DecidableEq

/-- `certificateController.getCertificateByApiCode`: 404 on a miss; on a hit
the verification is recorded and the record returned. -/
def getCertificateByApiCode (found : Option Certificate) (now : Nat) :
    ApiCodeResponse × Option Certificate :=
  match found with
  | none => (⟨404, false, none⟩, none)
  | some c =>
      let c2 := recordVerification c now
      (⟨200, true, some c2⟩, some c2)

/- ### Store-level view of a verification event, for the counter claims -/

/-- One full verification event against a store snapshot: read the document,
apply `recordVerification`, save the whole document back. -/
def verifyStep (store : List Certificate) (id : String) (now : Nat) :
    List Certificate :=
  match findById store id with
  | none => store
  | some c => saveCert store (recordVerification c now)

/-- The interleaving in which two concurrent verification handlers both read
the same snapshot before either saves its incremented document. -/
def interleavedVerifyPair (store : List Certificate) (id : String)
    (t1 t2 : Nat) : List Certificate :=
  match findById store id with
  | none => store
  | some c => saveCert (saveCert store (recordVerification c t1)) (recordVerification c t2)

/- ### Spec-side definition for the refinement comparison of claim C1 -/

/-- Stated from the spec's words, for comparison with `overallValid`:
local status is MINTED or VERIFIED, and no ledger signal was obtainable or
the obtained signal reports valid. -/
def specOverallValidity (status : CertStatus) (signalIsValid : Option Bool) : Bool :=
  (status == CertStatus.MINTED || status == CertStatus.VERIFIED) &&
    (match signalIsValid with
     | none => true
     | some v => v)

/-- The amendment of `specOverallValidity` forced by the source: only a
MINTED local status passes the local test. -/
def amendedOverallValidity (status : CertStatus) (signalIsValid : Option Bool) : Bool :=
  (status == CertStatus.MINTED) &&
    (match signalIsValid with
     | none => true
     | some v => v)

/- ### Concrete records for witnesses and counterexamples -/

/-- A concrete minted record. -/
def sampleCert : Certificate :=
  { id := "507f1f77bcf86cd799439011", studentName := "Ada Lovelace",
    degree := "BSc Mathematics", overallCGPA := "9.1", graduationYear := 2024,
    issuedAt := "Mon Oct 06 2025", apiCode := "CERT-2025-MDTX-Q3RZ0A",
    certificateHash := "a665a45920422f9d417e4867efdc4fb8a04a1f3fff1fa07e998e86f7f7a27ae3",
    tokenId := none, transactionHash := none, blockNumber := none,
    status := CertStatus.MINTED, revocationReason := none,
    qrCode := none, verificationLink := none,
    verificationCount := 0, lastVerified := none }

/-- The same payload and issuance timestamp as `sampleCert`, but different
mutable state (status, counter, token). -/
def sampleCertLater : Certificate :=
  { sampleCert with
    status := CertStatus.VERIFIED, verificationCount := 7,
    tokenId := some 9, lastVerified := some 1700000000 }

/-- A concrete anchored record (has a ledger token). -/
def anchoredSample : Certificate :=
  { sampleCert with tokenId := some 42 }

/-- A concrete unanchored record. -/
def plainSample : Certificate :=
  { sampleCert with status := CertStatus.PENDING }

/-- A concrete already-revoked, unanchored record with a stored reason. -/
def alreadyRevoked : Certificate :=
  { sampleCert with
    status := CertStatus.REVOKED,
    revocationReason := some "first reason" }

/-- A concrete issuing college. -/
def sampleCollege : College :=
  { id := "64ff00112233445566778899", code := "MIT",
    walletAddress := "0x1111111111111111111111111111111111111111" }

/-- Concrete issuance request data. -/
def sampleInput : IssuanceInput :=
  { certId := "507f1f77bcf86cd799439011", studentName := "Ada Lovelace",
    degree := "BSc Mathematics", overallCGPA := "9.1", graduationYear := 2024,
    issuedAt := "Mon Oct 06 2025" }

/-- A concrete mint result. -/
def sampleMint : MintResult :=
  { tokenId := 77, transactionHash := "0xabc123", blockNumber := 1234, gasUsed := "21000" }

/-- The Mongo duplicate-key error raised on a uniqueness violation. -/
def dupKeyError : String :=
  "E11000 duplicate key error collection: certificates index: apiCode_1"

/- ### Digest shape lemmas -/

theorem bytesToHexChars_length (bs : List Nat) :
    (bytesToHexChars bs).length = 2 * bs.length := by
  induction bs with
  | nil => rfl
  | cons b rest ih =>
      simp only [bytesToHexChars, List.length_cons, ih]
      omega

theorem stateBytes_length (st : Hash8) : (stateBytes st).length = 32 := by
  simp [stateBytes, wordBytes]

theorem sha256Bytes_length (msg : List Nat) : (sha256Bytes msg).length = 32 :=
  stateBytes_length _

theorem hexChar_mem (n : Nat) : hexChar n ∈ hexAlphabet := by
  have h : n % 16 < 16 := Nat.mod_lt _ (by omega)
  unfold hexChar
  generalize n % 16 = m at h ⊢
  interval_cases m <;> decide

theorem bytesToHexChars_hex (bs : List Nat) :
    ∀ c ∈ bytesToHexChars bs, c ∈ hexAlphabet := by
  induction bs with
  | nil => intro c hc; cases hc
  | cons b rest ih =>
      intro c hc
      simp only [bytesToHexChars, List.mem_cons] at hc
      rcases hc with h1 | h2 | h3
      · exact h1 ▸ hexChar_mem _
      · exact h2 ▸ hexChar_mem _
      · exact ih c h3

theorem sha256Hex_length (s : String) : (sha256Hex s).length = 64 := by
  show (bytesToHexChars (sha256Bytes _)).length = 64
  rw [bytesToHexChars_length, sha256Bytes_length]

theorem sha256Hex_chars (s : String) :
    ∀ c ∈ (sha256Hex s).data, c ∈ hexAlphabet :=
  bytesToHexChars_hex _

/-- Claim C6 (confirmed): `generateHash` is a pure deterministic function of
the payload fields and the issuance timestamp — two records agreeing on those
inputs hash identically whatever the rest of their state — and the digest is
a fixed-length (64) string of hexadecimal characters. -/
theorem generateHash_deterministic_fixed_hex (c₁ c₂ : Certificate)
    (hn : c₁.studentName = c₂.studentName) (hd : c₁.degree = c₂.degree)
    (hc : c₁.overallCGPA = c₂.overallCGPA)
    (hg : c₁.graduationYear = c₂.graduationYear)
    (hi : c₁.issuedAt = c₂.issuedAt) :
    generateHash c₁ = generateHash c₂ ∧
    (generateHash c₁).length = 64 ∧
    ∀ ch ∈ (generateHash c₁).data, ch ∈ hexAlphabet := by
  refine ⟨?_, sha256Hex_length _, sha256Hex_chars _⟩
  unfold generateHash hashInput
  rw [hn, hd, hc, hg, hi]

/-- Claim C6 witness: the theorem applied to two concrete records that share
payload and timestamp but differ in status, counter and token. -/
theorem generateHash_deterministic_fixed_hex_witness :
    generateHash sampleCert = generateHash sampleCertLater ∧
    (generateHash sampleCert).length = 64 ∧
    ∀ ch ∈ (generateHash sampleCert).data, ch ∈ hexAlphabet :=
  generateHash_deterministic_fixed_hex sampleCert sampleCertLater
    rfl rfl rfl rfl rfl

/- ### Claim C1 — overall validity formula -/

/-- The controllers' formula and the amended spec formula agree. -/
theorem overallValid_eq_amended (st : CertStatus) (sig : Option Bool) :
    overallValid st sig = amendedOverallValidity st sig := by
  cases sig <;> rfl

/-- A REVOKED status fails the amended formula whatever the signal. -/
theorem amendedOverallValidity_revoked (sig : Option Bool) :
    amendedOverallValidity CertStatus.REVOKED sig = false := by
  cases sig <;> rfl

/-- Claim C1 counterexample: on a record whose local status is VERIFIED (and
with no obtainable ledger signal) the controllers compute validity `false`,
while the claimed formula — status MINTED or VERIFIED, and no signal or a
valid signal — gives `true`.  The code tests MINTED only. -/
theorem overall_validity_claim_false_on_verified :
    ¬ ((verifyCertificateById (some sampleCertLater) (Except.error "ledger down") 0).isValid
        = specOverallValidity sampleCertLater.status
            ((chainSignal sampleCertLater.tokenId (Except.error "ledger down")).map
              (fun v => v.isValid))) := by
  decide

/-- Claim C1 (amended): on every path of the Verification Engine — by
identifier, by fingerprint, by QR payload — the computed validity flag equals:
local status is MINTED (VERIFIED no longer passes) and (no ledger signal was
obtainable or the obtained signal reports valid); in particular a REVOKED
local status always yields false regardless of any ledger signal. -/
theorem overall_validity_formula (cert : Certificate)
    (ledger : Except String ChainVerification)
    (hledger : Except String HashVerification) (now : Nat)
    (store : List Certificate) (qrData : String)
    (hqr : qrLookup store qrData = some cert) :
    ((verifyCertificateById (some cert) ledger now).isValid
      = amendedOverallValidity cert.status
          ((chainSignal cert.tokenId ledger).map (fun v => v.isValid))) ∧
    ((verifyCertificateByHash (some cert) hledger now).isValid
      = amendedOverallValidity cert.status
          (hledger.toOption.map (fun v => v.isValid))) ∧
    ((verifyByQRCode store qrData ledger now).isValid
      = amendedOverallValidity cert.status
          ((chainSignal cert.tokenId ledger).map (fun v => v.isValid))) ∧
    (cert.status = CertStatus.REVOKED →
      (verifyCertificateById (some cert) ledger now).isValid = false ∧
      (verifyCertificateByHash (some cert) hledger now).isValid = false ∧
      (verifyByQRCode store qrData ledger now).isValid = false) := by
  have h1 : (verifyCertificateById (some cert) ledger now).isValid
      = overallValid cert.status
          ((chainSignal cert.tokenId ledger).map (fun v => v.isValid)) := rfl
  have h2 : (verifyCertificateByHash (some cert) hledger now).isValid
      = overallValid cert.status
          (hledger.toOption.map (fun v => v.isValid)) := by
    cases hledger <;> rfl
  have h3 : (verifyByQRCode store qrData ledger now).isValid
      = overallValid cert.status
          ((chainSignal cert.tokenId ledger).map (fun v => v.isValid)) := by
    simp only [verifyByQRCode, hqr]
    rfl
  refine ⟨h1.trans (overallValid_eq_amended _ _), h2.trans (overallValid_eq_amended _ _),
    h3.trans (overallValid_eq_amended _ _), fun hrev => ⟨?_, ?_, ?_⟩⟩
  · rw [h1, overallValid_eq_amended, hrev, amendedOverallValidity_revoked]
  · rw [h2, overallValid_eq_amended, hrev, amendedOverallValidity_revoked]
  · rw [h3, overallValid_eq_amended, hrev, amendedOverallValidity_revoked]

/-- Claim C1 witness: the amended formula instantiated on a concrete minted
record resolved through all three paths (the QR path through its bare
identifier). -/
theorem overall_validity_formula_witness :
    ((verifyCertificateById (some sampleCert) (Except.error "down") 3).isValid
      = amendedOverallValidity sampleCert.status
          ((chainSignal sampleCert.tokenId (Except.error "down")).map
            (fun v => v.isValid))) ∧
    ((verifyCertificateByHash (some sampleCert) (Except.error "down") 3).isValid
      = amendedOverallValidity sampleCert.status
          ((Except.toOption (Except.error "down" : Except String HashVerification)).map
            (fun v => v.isValid))) ∧
    ((verifyByQRCode [sampleCert] sampleCert.id (Except.error "down") 3).isValid
      = amendedOverallValidity sampleCert.status
          ((chainSignal sampleCert.tokenId (Except.error "down")).map
            (fun v => v.isValid))) ∧
    (sampleCert.status = CertStatus.REVOKED →
      (verifyCertificateById (some sampleCert) (Except.error "down") 3).isValid = false ∧
      (verifyCertificateByHash (some sampleCert)
          (Except.error "down" : Except String HashVerification) 3).isValid = false ∧
      (verifyByQRCode [sampleCert] sampleCert.id (Except.error "down") 3).isValid = false) :=
  overall_validity_formula sampleCert (Except.error "down") (Except.error "down") 3
    [sampleCert] sampleCert.id (by decide)

/- ### Claim C2 — issuance survives anchor failure -/

/-- Claim C2 (confirmed): whenever every local persistence step succeeds and
the Ledger Anchor Client's mint throws, issuance still responds 201 success
with the access code, verification link, QR representation and the non-fatal
pending-anchoring warning, and the persisted record is PENDING with all
anchoring fields unset. -/
theorem issuance_succeeds_despite_anchor_failure (col : College)
    (inp : IssuanceInput) (year : Nat) (tB36 rnd clientUrl qr e : String) :
    let r := issueCertificate (some col) inp year tB36 rnd clientUrl
      (.ok ()) (.ok qr) (.ok ()) (.error e) (.ok ())
    r.1.httpStatus = 201 ∧ r.1.success = true ∧
    r.1.warning = some "Blockchain minting failed, will retry automatically" ∧
    r.1.apiCode = some (generateApiCode none year tB36 rnd) ∧
    r.1.verificationLink = some (verificationLinkFor clientUrl inp.certId) ∧
    r.1.qrCode = some qr ∧
    ∃ c, r.2 = some c ∧ c.status = CertStatus.PENDING ∧ c.tokenId = none ∧
      c.transactionHash = none ∧ c.blockNumber = none :=
  ⟨rfl, rfl, rfl, rfl, rfl, rfl, _, rfl, rfl, rfl, rfl, rfl⟩

/- ### Claim C5 — no retry on uniqueness conflicts -/

/-- Claim C5 counterexample: a single store uniqueness violation (the
duplicate-key error surfacing at the first save) makes the issuance fail
outright with a 500 response and nothing persisted — nothing regenerates the
code or retries. -/
theorem uniqueness_conflict_fails_issuance :
    issueCertificate (some sampleCollege) sampleInput 2025 "MDTX" "Q3RZ0A"
        "http://localhost:3000"
        (.error dupKeyError) (.ok "data:image/png;base64,qr") (.ok ())
        (.ok sampleMint) (.ok ())
      = (issuanceFailure dupKeyError, none) := rfl

/-- Claim C5 (amended): a uniqueness violation on the fingerprint or access
code surfaces the store error directly as a fatal 500 issuance failure on the
first conflict; there is no regeneration with fresh randomness and no retry of
persistence. -/
theorem no_retry_on_duplicate_save (col : College) (inp : IssuanceInput)
    (year : Nat) (tB36 rnd clientUrl e : String)
    (qrResult : Except String String) (save2 : Except String Unit)
    (mint : Except String MintResult) (save3 : Except String Unit) :
    issueCertificate (some col) inp year tB36 rnd clientUrl
        (.error e) qrResult save2 mint save3
      = (issuanceFailure e, none) := rfl

/- ### Claim C3 — revocation versus ledger revoke failure -/

/-- Claim C3 counterexample: on an anchored record, a failing ledger revoke
(here the mock-mode client, which always throws) aborts the whole revocation
with a 500 response and leaves the local record un-revoked — contradicting
the claim that the record ends REVOKED regardless of the ledger outcome. -/
theorem revoke_claim_false_on_ledger_failure :
    revokeCertificate (some anchoredSample) "fraudulent transcript"
        (serviceRevokeCertificate false (.ok ⟨"0xfeed", 3⟩)) (.ok ())
      = (⟨500, false, "Certificate revocation failed"⟩, some anchoredSample) ∧
    anchoredSample.status ≠ CertStatus.REVOKED := by
  exact ⟨rfl, by decide⟩

/-- Claim C3 (amended): for a revocation request on an existing credential,
if the credential has an anchor token the ledger revoke operation is invoked
and its failure aborts the revocation with an error, leaving the record
unchanged; when the ledger revoke succeeds — or no anchor token exists — and
the save succeeds, the local record ends with status REVOKED and the supplied
reason stored. -/
theorem revoke_outcome_by_ledger_result (cert : Certificate) (reason : String)
    (chainRevoke : Except String RevokeResult) :
    (∀ t e, cert.tokenId = some t → chainRevoke = .error e →
      revokeCertificate (some cert) reason chainRevoke (.ok ())
        = (⟨500, false, "Certificate revocation failed"⟩, some cert)) ∧
    (∀ c', (cert.tokenId = none ∨ ∃ res, chainRevoke = .ok res) →
      (revokeCertificate (some cert) reason chainRevoke (.ok ())).2 = some c' →
      c'.status = CertStatus.REVOKED ∧ c'.revocationReason = some reason) := by
  constructor
  · intro t e ht he
    simp only [revokeCertificate, ht, he, Except.map]
  · intro c' hok h2
    rcases hok with hnone | ⟨res, hres⟩
    · simp only [revokeCertificate, hnone] at h2
      cases h2
      exact ⟨rfl, rfl⟩
    · cases htok : cert.tokenId <;>
        · simp only [revokeCertificate, htok, hres, Except.map] at h2
          cases h2
          exact ⟨rfl, rfl⟩

/-- Claim C3 witness: the failure half on a concrete anchored record with a
thrown ledger revoke, and the success half on a concrete unanchored record. -/
theorem revoke_outcome_by_ledger_result_witness :
    (revokeCertificate (some anchoredSample) "fraudulent transcript"
        (Except.error "Revocation failed: Contract not initialized") (.ok ())
      = (⟨500, false, "Certificate revocation failed"⟩, some anchoredSample)) ∧
    (({ plainSample with
        status := CertStatus.REVOKED,
        revocationReason := some "fraudulent transcript" } : Certificate).status
          = CertStatus.REVOKED ∧
      ({ plainSample with
        status := CertStatus.REVOKED,
        revocationReason := some "fraudulent transcript" } : Certificate).revocationReason
          = some "fraudulent transcript") := by
  constructor
  · exact (revoke_outcome_by_ledger_result anchoredSample "fraudulent transcript"
      (Except.error "Revocation failed: Contract not initialized")).1
      42 "Revocation failed: Contract not initialized" rfl rfl
  · exact (revoke_outcome_by_ledger_result plainSample "fraudulent transcript"
      (Except.error "unused")).2
      { plainSample with
        status := CertStatus.REVOKED,
        revocationReason := some "fraudulent transcript" }
      (Or.inl rfl) rfl

/- ### Claim C4 — REVOKED terminality and double revocation -/

/-- Claim C4 counterexample: re-revoking an already-REVOKED, unanchored
record is accepted (200 success) and overwrites the stored reason, so the
request is neither rejected nor does it leave the originally stored reason
intact. -/
theorem rerevoke_overwrites_reason :
    (revokeCertificate (some alreadyRevoked) "second reason"
        (.error "unused") (.ok ())).1.success = true ∧
    (revokeCertificate (some alreadyRevoked) "second reason"
        (.error "unused") (.ok ())).2
      = some { alreadyRevoked with revocationReason := some "second reason" } ∧
    alreadyRevoked.revocationReason = some "first reason" ∧
    some "second reason" ≠ some "first reason" := by
  refine ⟨rfl, rfl, rfl, by decide⟩

/-- Claim C4 (amended): REVOKED is terminal for the status field — no modeled
operation on an existing record (`recordVerification`, reached by every
verification path and the access-code lookup, or `revokeCertificate`) moves a
REVOKED credential to another status — but re-revocation is not rejected: on
an unanchored REVOKED record it succeeds and replaces the stored reason with
the newly supplied one. -/
theorem revoked_is_terminal_but_reason_overwritten (c : Certificate)
    (now : Nat) (reason : String) (chainRevoke : Except String RevokeResult)
    (save : Except String Unit) (hc : c.status = CertStatus.REVOKED) :
    (recordVerification c now).status = CertStatus.REVOKED ∧
    (∀ c', (revokeCertificate (some c) reason chainRevoke save).2 = some c' →
      c'.status = CertStatus.REVOKED) ∧
    (c.tokenId = none → save = .ok () →
      (revokeCertificate (some c) reason chainRevoke save).1.success = true ∧
      (revokeCertificate (some c) reason chainRevoke save).2
        = some { c with status := CertStatus.REVOKED,
                        revocationReason := some reason }) := by
  refine ⟨hc, ?_, ?_⟩
  · intro c' h2
    cases htok : c.tokenId with
    | none =>
        simp only [revokeCertificate, htok] at h2
        cases hsave : save <;> rw [hsave] at h2 <;> cases h2
        · exact hc
        · rfl
    | some t =>
        cases hrev : chainRevoke with
        | error e =>
            simp only [revokeCertificate, htok, hrev, Except.map] at h2
            cases h2
            exact hc
        | ok res =>
            simp only [revokeCertificate, htok, hrev, Except.map] at h2
            cases hsave : save <;> rw [hsave] at h2 <;> cases h2
            · exact hc
            · rfl
  · intro htok hsave
    subst hsave
    simp [revokeCertificate, htok]

/-- Claim C4 witness: the theorem instantiated on the concrete
already-revoked record. -/
theorem revoked_is_terminal_but_reason_overwritten_witness :
    (recordVerification alreadyRevoked 9).status = CertStatus.REVOKED ∧
    (∀ c', (revokeCertificate (some alreadyRevoked) "second reason"
        (.error "unused") (.ok ())).2 = some c' →
      c'.status = CertStatus.REVOKED) ∧
    (alreadyRevoked.tokenId = none → (.ok () : Except String Unit) = .ok () →
      (revokeCertificate (some alreadyRevoked) "second reason"
        (.error "unused") (.ok ())).1.success = true ∧
      (revokeCertificate (some alreadyRevoked) "second reason"
        (.error "unused") (.ok ())).2
        = some { alreadyRevoked with
                 status := CertStatus.REVOKED,
                 revocationReason := some "second reason" }) :=
  revoked_is_terminal_but_reason_overwritten alreadyRevoked 9 "second reason"
    (.error "unused") (.ok ()) rfl

/- ### Claim C10 — access-code lookup counts as a verification -/

/-- Claim C10 (confirmed): a successful access-code lookup records a
verification event — the persisted record's counter goes up by exactly one
and the last-verified timestamp is set — although the endpoint's response
carries no validity verdict (its shape has none). -/
theorem apiCode_lookup_counts_verification (store : List Certificate)
    (code : String) (c : Certificate) (now : Nat)
    (h : findByApiCode store code = some c) :
    (getCertificateByApiCode (findByApiCode store code) now).1.httpStatus = 200 ∧
    (getCertificateByApiCode (findByApiCode store code) now).1.success = true ∧
    ∃ c2, (getCertificateByApiCode (findByApiCode store code) now).2 = some c2 ∧
      c2.verificationCount = c.verificationCount + 1 ∧
      c2.lastVerified = some now ∧ c2.status = c.status := by
  rw [h]
  exact ⟨rfl, rfl, recordVerification c now, rfl, rfl, rfl, rfl⟩

/-- Claim C10 witness: the lookup of the concrete record by its access code. -/
theorem apiCode_lookup_counts_verification_witness :
    (getCertificateByApiCode
        (findByApiCode [sampleCert] "CERT-2025-MDTX-Q3RZ0A") 11).1.httpStatus = 200 ∧
    (getCertificateByApiCode
        (findByApiCode [sampleCert] "CERT-2025-MDTX-Q3RZ0A") 11).1.success = true ∧
    ∃ c2, (getCertificateByApiCode
        (findByApiCode [sampleCert] "CERT-2025-MDTX-Q3RZ0A") 11).2 = some c2 ∧
      c2.verificationCount = sampleCert.verificationCount + 1 ∧
      c2.lastVerified = some 11 ∧ c2.status = sampleCert.status :=
  apiCode_lookup_counts_verification [sampleCert] "CERT-2025-MDTX-Q3RZ0A"
    sampleCert 11 (by decide)

/- ### Claim C7 — verification counter semantics -/

/-- A find hit pins the found record's identifier. -/
theorem find_eq_of_findById (store : List Certificate) (id : String)
    (c : Certificate) (h : findById store id = some c) : c.id = id := by
  have hp := List.find?_some h
  simpa using hp

/-- Saving a document whose identifier is the one searched for makes the
subsequent lookup return exactly the saved document. -/
theorem findById_saveCert (store : List Certificate) (id : String)
    (c c2 : Certificate) (h : findById store id = some c) (h2 : c2.id = id) :
    findById (saveCert store c2) id = some c2 := by
  induction store with
  | nil => simp [findById] at h
  | cons d rest ih =>
      by_cases hd : d.id = id
      · simp [findById, saveCert, List.find?_cons, hd, h2]
      · have hdc : (d.id == c2.id) = false := by simp [h2, hd]
        have h' : findById rest id = some c := by
          simpa [findById, List.find?_cons, hd] using h
        have htail := ih h'
        simp only [findById, saveCert, List.map_cons] at htail ⊢
        rw [hdc]
        simp only [Bool.false_eq_true, if_false]
        rw [List.find?_cons_of_neg _ (by simpa using hd)]
        exact htail

/-- One verification event on a store that holds the credential returns the
store with the incremented document in place. -/
theorem verifyStep_found (store : List Certificate) (id : String)
    (c : Certificate) (now : Nat) (h : findById store id = some c) :
    findById (verifyStep store id now) id = some (recordVerification c now) := by
  have hid : c.id = id := find_eq_of_findById store id c h
  unfold verifyStep
  rw [h]
  exact findById_saveCert store id c _ h hid

/-- Claim C7 counterexample: two concurrent verifications of the same
credential that both read the same snapshot before either saves end with the
counter one — not two — above its initial value: a lost update, because
`recordVerification` is an in-memory increment followed by a whole-document
save, not an atomic increment at the store. -/
theorem concurrent_rmw_loses_update :
    findById (interleavedVerifyPair [sampleCert] sampleCert.id 5 6) sampleCert.id
      = some { sampleCert with
               verificationCount := sampleCert.verificationCount + 1,
               lastVerified := some 6 } ∧
    sampleCert.verificationCount + 1 ≠ sampleCert.verificationCount + 2 :=
  ⟨by decide, by decide⟩

/-- Claim C7 (amended): every verification event increments the credential's
counter by exactly one (so it never decreases), and two sequential
verifications increase it by exactly two; but the update is a read-modify-
write of the document at this layer, not an atomic store increment, so
concurrent verifications may lose updates (see the counterexample). -/
theorem verification_counter_sequential (store : List Certificate)
    (id : String) (c : Certificate) (t1 t2 : Nat)
    (h : findById store id = some c) :
    (∀ d now, (recordVerification d now).verificationCount
        = d.verificationCount + 1) ∧
    ∃ c2, findById (verifyStep (verifyStep store id t1) id t2) id = some c2 ∧
      c2.verificationCount = c.verificationCount + 2 := by
  have s1 := verifyStep_found store id c t1 h
  have s2 := verifyStep_found _ id _ t2 s1
  exact ⟨fun d now => rfl, _, s2, rfl⟩

/-- Claim C7 witness: two sequential verification events on a concrete
one-credential store. -/
theorem verification_counter_sequential_witness :
    (∀ d now, (recordVerification d now).verificationCount
        = d.verificationCount + 1) ∧
    ∃ c2, findById (verifyStep (verifyStep [sampleCert] sampleCert.id 5)
        sampleCert.id 6) sampleCert.id = some c2 ∧
      c2.verificationCount = sampleCert.verificationCount + 2 :=
  verification_counter_sequential [sampleCert] sampleCert.id sampleCert 5 6
    (by decide)

/- ### Claim C9 — mock-mode Ledger Anchor Client -/

/-- Claim C9 counterexample: with no contract configured (mock mode), the
service revoke and verify-by-fingerprint operations throw
Contract-not-initialized errors instead of returning placeholder results. -/
theorem mock_revoke_errors :
    serviceRevokeCertificate false (.ok ⟨"0xfeed", 3⟩)
        = .error "Revocation failed: Contract not initialized" ∧
    serviceVerifyCertificateByHash false
        (.ok ⟨7, "Ada Lovelace", "BSc Mathematics", "MIT", 2024, true⟩)
        = .error "Hash verification failed: Contract not initialized" :=
  ⟨rfl, rfl⟩

/-- Claim C9 (amended): in mock mode, `anchor` (mint) returns synthetically
generated well-formed identifiers (token below 10000, block reference below
1000000, a 0x-prefixed transaction reference, fixed gas) and `verify` by
token returns a structurally valid placeholder reporting valid — but
`verifyByFingerprint` and `revoke` throw errors, so their callers do need
mode-aware handling. -/
theorem mock_mode_operation_shapes (randToken randBlock now : Nat)
    (randHexFrac : String) (chainM : Except String MintResult)
    (chainV : Except String ChainVerification)
    (chainH : Except String HashVerification)
    (chainR : Except String RevokeResult) :
    (∃ r, serviceMintCertificate false randToken randBlock randHexFrac chainM
        = .ok r ∧ r.tokenId < 10000 ∧ r.blockNumber < 1000000 ∧
        r.transactionHash = "0x" ++ randHexFrac ∧ r.gasUsed = "21000") ∧
    (∃ v, serviceVerifyCertificate false now chainV = .ok v ∧
        v.isValid = true) ∧
    (∃ e, serviceVerifyCertificateByHash false chainH = .error e) ∧
    (∃ e, serviceRevokeCertificate false chainR = .error e) := by
  refine ⟨⟨_, rfl, Nat.mod_lt _ (by omega), Nat.mod_lt _ (by omega), rfl, rfl⟩,
    ⟨_, rfl, rfl⟩, ⟨_, rfl⟩, ⟨_, rfl⟩⟩

/- ### Claim C8 — QR payload decoding and dispatch -/

/-- `lastN` of an append whose suffix has the requested length is that
suffix. -/
theorem lastN_append (a b : List Char) : lastN (a ++ b) b.length = b := by
  unfold lastN
  rw [List.length_append, Nat.add_sub_cancel]
  exact List.drop_left a b

/-- `dropLastN` of an append whose suffix has the requested length is the
prefix. -/
theorem dropLastN_append (a b : List Char) : dropLastN (a ++ b) b.length = a := by
  unfold dropLastN
  rw [List.length_append, Nat.add_sub_cancel]
  exact List.take_left a b

/-- The codec classifies any string of the canonical id-URL shape —
arbitrary prefix (not itself of fingerprint length), the verify path segment,
then a 24-hex identifier — as that identifier. -/
theorem validateQRData_canonical_url (a b : List Char)
    (hb : b.length = 24) (hbhex : b.all isHexChar = true)
    (ha : a.length ≠ 32) :
    validateQRData ⟨a ++ "/verify/".data ++ b⟩
      = ⟨QRType.certificateId, ⟨b⟩, true⟩ := by
  have h8 : ("/verify/".data).length = 8 := rfl
  have h24 : ((a ++ "/verify/".data ++ b).length == 24) = false := by
    rw [beq_eq_false_iff_ne]
    simp only [List.length_append, hb, h8]
    omega
  have h64 : ((a ++ "/verify/".data ++ b).length == 64) = false := by
    rw [beq_eq_false_iff_ne]
    simp only [List.length_append, hb, h8]
    omega
  have e1 : lastN (a ++ "/verify/".data ++ b) 24 = b := by
    rw [← hb]
    exact lastN_append _ b
  have e2 : dropLastN (a ++ "/verify/".data ++ b) 24 = a ++ "/verify/".data := by
    rw [← hb]
    exact dropLastN_append _ b
  have e3 : lastN (a ++ "/verify/".data) 8 = "/verify/".data := by
    rw [show (8 : Nat) = ("/verify/".data).length from rfl]
    exact lastN_append a _
  unfold validateQRData
  simp only [h24, h64, Bool.false_and, Bool.false_eq_true, if_false,
    e1, e2, e3, hb, hbhex, beq_self_eq_true, Bool.and_true, Bool.true_and,
    if_true]

/-- Claim C8 counterexample: the canonical verification URL of the concrete
stored record decodes (via the codec) to its identifier, and the record is
present and resolvable by that identifier, yet the QR verification endpoint
reports 404 NotFound on the URL — the controller never invokes the codec. -/
theorem canonical_url_qr_not_found :
    validateQRData (verificationLinkFor "http://localhost:3000" sampleCert.id)
      = ⟨QRType.certificateId, sampleCert.id, true⟩ ∧
    findById [sampleCert] sampleCert.id = some sampleCert ∧
    verifyByQRCode [sampleCert]
        (verificationLinkFor "http://localhost:3000" sampleCert.id)
        (Except.error "down") 0
      = ⟨404, false, false, none⟩ :=
  ⟨by decide, by decide, by decide⟩

/-- Claim C8 (amended): the codec (`validateQRData`) does follow the priority
order — bare 24-hex identifier, bare 64-hex fingerprint, then canonical URL
forms — and extracts the identifier embedded in a canonical verification URL;
but the QR verification endpoint never invokes the codec: it dispatches only
a bare 24-hex payload to the by-identifier lookup and matches every other
payload literally against stored fingerprints, so a canonical URL input
(whose length differs from every stored 64-character fingerprint) is reported
NotFound instead of resolving to the embedded credential. -/
theorem qr_dispatch_behavior (clientUrl id : String)
    (store : List Certificate) (ledger : Except String ChainVerification)
    (now : Nat)
    (hid : id.data.length = 24) (hhex : id.data.all isHexChar = true)
    (hstore : ∀ c ∈ store, c.certificateHash.data.length = 64)
    (hcu : clientUrl.data.length ≠ 32) :
    validateQRData (verificationLinkFor clientUrl id)
      = ⟨QRType.certificateId, id, true⟩ ∧
    verifyByQRCode store (verificationLinkFor clientUrl id) ledger now
      = ⟨404, false, false, none⟩ := by
  have hurl : (verificationLinkFor clientUrl id).data
      = clientUrl.data ++ "/verify/".data ++ id.data := by
    unfold verificationLinkFor
    rw [String.data_append, String.data_append]
  have hu2 : verificationLinkFor clientUrl id
      = ⟨clientUrl.data ++ "/verify/".data ++ id.data⟩ :=
    congrArg String.mk hurl
  constructor
  · rw [hu2]
    exact validateQRData_canonical_url clientUrl.data id.data hid hhex hcu
  · have h8 : ("/verify/".data).length = 8 := rfl
    have hobj : isObjectIdHex (verificationLinkFor clientUrl id) = false := by
      unfold isObjectIdHex
      rw [hurl]
      have hne : ((clientUrl.data ++ "/verify/".data ++ id.data).length == 24)
          = false := by
        rw [beq_eq_false_iff_ne]
        simp only [List.length_append, hid, h8]
        omega
      rw [hne, Bool.false_and]
    have hfind : findByHash store (verificationLinkFor clientUrl id) = none := by
      unfold findByHash
      rw [List.find?_eq_none]
      intro c hc
      simp only [beq_iff_eq]
      intro heq
      have hlen : c.certificateHash.data.length
          = (verificationLinkFor clientUrl id).data.length := by rw [heq]
      rw [hstore c hc, hurl] at hlen
      simp only [List.length_append, hid, h8] at hlen
      omega
    have hql : qrLookup store (verificationLinkFor clientUrl id) = none := by
      unfold qrLookup
      rw [hobj]
      simp only [Bool.false_eq_true, if_false]
      exact hfind
    unfold verifyByQRCode
    rw [hql]

/-- Claim C8 witness: the amended statement on the concrete record, client
URL and identifier. -/
theorem qr_dispatch_behavior_witness :
    validateQRData (verificationLinkFor "http://localhost:3000" "507f1f77bcf86cd799439011")
      = ⟨QRType.certificateId, "507f1f77bcf86cd799439011", true⟩ ∧
    verifyByQRCode [sampleCert]
        (verificationLinkFor "http://localhost:3000" "507f1f77bcf86cd799439011")
        (Except.error "down") 0
      = ⟨404, false, false, none⟩ :=
  qr_dispatch_behavior "http://localhost:3000" "507f1f77bcf86cd799439011"
    [sampleCert] (Except.error "down") 0
    (by decide) (by decide) (by decide) (by decide)

end Certichain
